import Mathlib

/-!
Verification development for the requirements-engineering pipeline
(`requirements_engineer_agent.py`).  The Python source is shallowly
embedded: pure functionality becomes Lean functions over `String` /
`List Char`; the external collaborators (NLTK sentence/word tokenizers,
the spaCy tagger, the memory-service client, the project file tree and
the clock) are passed in as explicit parameters.  Python's `set`
iteration order (used by `list(set(...))` in persona deduplication) is
implementation defined, so it is modelled as an explicit enumeration
parameter constrained to be an admissible deduplication.  All text is
ASCII in every relevant input, so `str.lower()` and friends are
modelled on the ASCII range.
-/

namespace ReqEng

/-! ### Basic Python string-operation models -/

/-- ASCII model of Python `str.lower()` applied to one character. -/
def asciiLower (c : Char) : Char :=
  match c with
  | 'A' => 'a' | 'B' => 'b' | 'C' => 'c' | 'D' => 'd' | 'E' => 'e'
  | 'F' => 'f' | 'G' => 'g' | 'H' => 'h' | 'I' => 'i' | 'J' => 'j'
  | 'K' => 'k' | 'L' => 'l' | 'M' => 'm' | 'N' => 'n' | 'O' => 'o'
  | 'P' => 'p' | 'Q' => 'q' | 'R' => 'r' | 'S' => 's' | 'T' => 't'
  | 'U' => 'u' | 'V' => 'v' | 'W' => 'w' | 'X' => 'x' | 'Y' => 'y'
  | 'Z' => 'z' | c => c

/-- ASCII model of Python `str.upper()` applied to one character. -/
def asciiUpper (c : Char) : Char :=
  match c with
  | 'a' => 'A' | 'b' => 'B' | 'c' => 'C' | 'd' => 'D' | 'e' => 'E'
  | 'f' => 'F' | 'g' => 'G' | 'h' => 'H' | 'i' => 'I' | 'j' => 'J'
  | 'k' => 'K' | 'l' => 'L' | 'm' => 'M' | 'n' => 'N' | 'o' => 'O'
  | 'p' => 'P' | 'q' => 'Q' | 'r' => 'R' | 's' => 'S' | 't' => 'T'
  | 'u' => 'U' | 'v' => 'V' | 'w' => 'W' | 'x' => 'X' | 'y' => 'Y'
  | 'z' => 'Z' | c => c

/-- Python `str.lower()` (ASCII model). -/
def pyLower (s : String) : String := ⟨s.data.map asciiLower⟩

/-- Python `\s` / `str.split()` whitespace class (ASCII part). -/
def pyIsSpace (c : Char) : Bool :=
  c == ' ' || c == '\t' || c == '\n' || c == '\r' || c == '\x0b' || c == '\x0c'

/-- ASCII letter test. -/
def isAsciiAlpha (c : Char) : Bool :=
  ('a' ≤ c && c ≤ 'z') || ('A' ≤ c && c ≤ 'Z')

/-- ASCII digit test. -/
def isAsciiDigit (c : Char) : Bool := '0' ≤ c && c ≤ '9'

/-- Python regex `\w` word-character class (ASCII part). -/
def isWordChar (c : Char) : Bool := isAsciiAlpha c || isAsciiDigit c || c == '_'

/-- Worker for `pySplitWs`: splits on whitespace runs, dropping empties. -/
def splitWsGo : List Char → List Char → List (List Char)
  | [], acc => if acc.isEmpty then [] else [acc.reverse]
  | c :: t, acc =>
    if pyIsSpace c then
      if acc.isEmpty then splitWsGo t [] else acc.reverse :: splitWsGo t []
    else splitWsGo t (c :: acc)

/-- Python `str.split()` with no argument: split on whitespace runs,
no empty pieces. -/
def pySplitWs (s : String) : List String :=
  (splitWsGo s.data []).map (fun l => String.mk l)

/-- Contiguous-sublist test on character lists (Python `in` on `str`). -/
def hasSubList : List Char → List Char → Bool
  | n, [] => n.isEmpty
  | n, c :: t => n.isPrefixOf (c :: t) || hasSubList n t

/-- Python substring test `needle in hay`. -/
def substrB (needle hay : String) : Bool := hasSubList needle.data hay.data

/-- Python `str.strip()` (ASCII whitespace model). -/
def pyStrip (s : String) : String :=
  ⟨((s.data.dropWhile pyIsSpace).reverse.dropWhile pyIsSpace).reverse⟩

/-- Python `str.startswith` on characters. -/
def pyStartsWith (s pre : String) : Bool := pre.data.isPrefixOf s.data

/-- Python `str.endswith` on characters. -/
def pyEndsWith (s post : String) : Bool := post.data.isSuffixOf s.data

/-- Python `str.zfill(w)` for unsigned digit strings: pad on the left
with zeros to width `w` (strings already at least that long are
returned unchanged). -/
def zfill (w : Nat) (s : String) : String :=
  if s.length < w then ⟨List.replicate (w - s.length) '0' ++ s.data⟩ else s

/-- Decimal digit character for a value below ten. -/
def digitCh (n : Nat) : Char :=
  match n with
  | 0 => '0' | 1 => '1' | 2 => '2' | 3 => '3' | 4 => '4'
  | 5 => '5' | 6 => '6' | 7 => '7' | 8 => '8' | 9 => '9'
  | _ => '*'

/-- Numeric value of a decimal digit character. -/
def dVal (c : Char) : Nat :=
  match c with
  | '0' => 0 | '1' => 1 | '2' => 2 | '3' => 3 | '4' => 4
  | '5' => 5 | '6' => 6 | '7' => 7 | '8' => 8 | '9' => 9
  | _ => 99

/-- Fuel-driven decimal conversion worker (most significant digit first). -/
def natDigitsAux : Nat → Nat → List Char → List Char
  | 0, _, acc => acc
  | fuel + 1, n, acc =>
    if n < 10 then digitCh n :: acc
    else natDigitsAux fuel (n / 10) (digitCh (n % 10) :: acc)

/-- Decimal digits of a natural number, most significant first. -/
def natDigits (n : Nat) : List Char := natDigitsAux (n + 1) n []

/-- Model of Python `str(n)` for a natural number. -/
def natStr (n : Nat) : String := ⟨natDigits n⟩

/-- Decimal value of a digit list (used to decode requirement ids). -/
def parseVal (cs : List Char) : Nat :=
  cs.foldl (fun a c => 10 * a + dVal c) 0

/-! ### Requirement classifier and attribute extractor
(`_extract_requirement_info`, `_detect_priority`,
`_detect_requirement_type`, `_detect_ambiguities`,
`_generate_suggestions`). -/

/-- Source `self.functional_keywords` (unused by control flow, kept for record). -/
def functionalKeywords : List String :=
  ["shall", "will", "must", "should", "can", "function", "feature", "capability"]

/-- Source `self.non_functional_keywords`. -/
def nonFunctionalKeywords : List String :=
  ["performance", "security", "scalability", "usability", "reliability", "availability"]

/-- The critical-priority keyword set. -/
def criticalKws : List String := ["critical", "essential", "mandatory", "required"]

/-- The high-priority keyword set. -/
def highKws : List String := ["important", "high", "priority", "urgent"]

/-- The medium-priority keyword set. -/
def mediumKws : List String := ["normal", "medium", "standard", "typical"]

/-- The low-priority keyword set. -/
def lowKws : List String := ["nice-to-have", "optional", "future", "enhancement", "low"]

/-- Source `self.priority_keywords`, in the dict's insertion order
critical, high, medium, low (each value is a Python set; only
membership is ever used). -/
def priorityKeywords : List (String × List String) :=
  [("critical", criticalKws), ("high", highKws), ("medium", mediumKws), ("low", lowKws)]

/-- Requirement indicator verbs from `_extract_requirement_info`. -/
def reqIndicators : List String :=
  ["shall", "will", "must", "should", "can", "need", "require", "enable", "allow"]

/-- Vague-quantifier word list from `_detect_ambiguities`. -/
def vagueWords : List String :=
  ["some", "many", "few", "several", "most", "often", "usually", "normally",
   "fast", "slow", "good", "bad"]

/-- Actor nouns from `_detect_ambiguities`. -/
def actorWords : List String := ["user", "system", "admin", "operator", "customer"]

/-- Embeds `_detect_priority`: first keyword bucket (critical, high, medium,
low) with a substring match on the lower-cased text wins; otherwise a
modal-verb fallback applies. -/
def detectPriority (text : String) : String :=
  let t := pyLower text
  if criticalKws.any (fun k => substrB k t) then "critical"
  else if highKws.any (fun k => substrB k t) then "high"
  else if mediumKws.any (fun k => substrB k t) then "medium"
  else if lowKws.any (fun k => substrB k t) then "low"
  else if ["must", "shall", "critical", "essential"].any (fun k => substrB k t) then "critical"
  else if ["should", "important"].any (fun k => substrB k t) then "high"
  else "medium"

/-- Embeds `_detect_requirement_type`. -/
def detectRequirementType (text : String) : String :=
  let t := pyLower text
  if nonFunctionalKeywords.any (fun k => substrB k t) then "non_functional"
  else "functional"

/-- Embeds `_detect_ambiguities`: vague quantifiers, missing actor, passive
voice, missing conditions, in this fixed order. -/
def detectAmbiguities (text : String) : List String :=
  let t := pyLower text
  (vagueWords.filterMap (fun w =>
    if substrB w t then
      some ("Vague quantifier: '" ++ w ++ "' - consider specific measurements")
    else none))
  ++ (if actorWords.any (fun a => substrB a t) then []
      else ["Missing actor - who performs this action?"])
  ++ (if substrB " be " t || substrB " been " t then
        ["Passive voice detected - consider active voice for clarity"]
      else [])
  ++ (if substrB "when" t || substrB "if" t || substrB "after" t then []
      else ["Missing conditions - when does this requirement apply?"])

/-- Embeds `_generate_suggestions`. -/
def generateSuggestions (text : String) (ambiguities : List String) : List String :=
  (if ambiguities.isEmpty then []
   else ["Make requirement SMART: Specific, Measurable, Achievable, Relevant, Time-bound"])
  ++ (if substrB "shall" (pyLower text) then ["Add acceptance criteria to define 'done'"]
      else [])
  ++ (if pyStartsWith text "As a" then []
      else ["Consider user story format: 'As a [persona], I want [goal] so that [benefit]'"])

/-- The per-sentence analysis record built by `_extract_requirement_info`. -/
structure ReqInfo where
  isRequirement : Bool
  title : String
  description : String
  priority : String
  rtype : String
  ambiguities : List String
  suggestions : List String
deriving DecidableEq, Repr

/-- Title truncation from `_extract_requirement_info`: first 50
characters plus an ellipsis when longer than 50. -/
def mkTitle (sentence : String) : String :=
  if 50 < sentence.data.length then ⟨sentence.data.take 50⟩ ++ "..." else sentence

/-- Embeds `_extract_requirement_info`.  Here `words` is the output of the external
word tokenizer on the lower-cased sentence (`word_tokenize` in the
source); the indicator test is exact membership in that token list. -/
def extractRequirementInfo (words : List String) (sentence : String) : ReqInfo :=
  if reqIndicators.any (fun ind => words.contains ind) then
    let ambs := detectAmbiguities sentence
    ⟨true, mkTitle sentence, sentence, detectPriority sentence,
      detectRequirementType sentence, ambs, generateSuggestions sentence ambs⟩
  else
    ⟨false, "", sentence, "medium", "functional", [], []⟩

/-- The parsed-requirement dict produced by
`parse_natural_language_requirements`. -/
structure PReq where
  id : String
  rawText : String
  title : String
  description : String
  priority : String
  rtype : String
  ambiguities : List String
  suggestions : List String
deriving DecidableEq, Repr

/-- Requirement id for zero-based source-sentence index `i`:
`f"REQ-{str(i+1).zfill(3)}"`. -/
def reqIdOf (i : Nat) : String := "REQ-" ++ zfill 3 (natStr (i + 1))

/-- One iteration of the `parse_natural_language_requirements` loop on
the enumerated sentence `(i, sentence)`: sentences shorter than 5 words
are skipped, the rest go through `_extract_requirement_info` and are
kept when classified as requirements. -/
def parseStep (wt : String → List String) (p : Nat × String) : Option PReq :=
  if (pySplitWs p.2).length < 5 then none
  else
    let info := extractRequirementInfo (wt (pyLower p.2)) p.2
    if info.isRequirement then
      some ⟨reqIdOf p.1, p.2, info.title, info.description, info.priority,
        info.rtype, info.ambiguities, info.suggestions⟩
    else none

/-- The loop of `parse_natural_language_requirements` over an
enumerated sentence list. -/
def parseSentences (wt : String → List String) (sents : List String) : List PReq :=
  sents.enum.filterMap (parseStep wt)

/-- Embeds `parse_natural_language_requirements`, with the external sentence
tokenizer `st` and word tokenizer `wt` as parameters. -/
def parseNaturalLanguageRequirements (st : String → List String)
    (wt : String → List String) (text : String) : List PReq :=
  parseSentences wt (st text)

/-! ### Persona extraction (`_extract_personas`)

The three persona regex patterns are implemented as bespoke matchers
with Python `re` backtracking semantics (leftmost match, alternatives
in order, greedy runs forced maximal because every run is followed by a
character of a disjoint class, lazy groups expanding only after the
terminator fails).  `re.findall` scanning is non-overlapping and
resumes after each match. -/

/-- Modal verbs of persona pattern 2 (none is a prefix of another). -/
def p2Modals : List String := ["can", "will", "shall", "should", "must"]

/-- If some modal is a prefix of the word run `w`, return the rest of
`w` after that modal. -/
def findModalStart (w : List Char) : Option (List Char) :=
  match p2Modals.find? (fun m => m.data.isPrefixOf w) with
  | some m => some (w.drop m.length)
  | none => none

/-- Lazy-group loop of pattern 2
(`(\w+(?:\s+\w+)*?)\s+(?:can|will|shall|should|must)`): repeatedly try
the `\s+`-modal terminator, otherwise absorb one more
whitespace-run/word-run pair into the capture. -/
def p2Go : Nat → List Char → List Char → Option (List Char × List Char)
  | 0, _, _ => none
  | fuel + 1, acc, rest =>
    let s := rest.takeWhile pyIsSpace
    let r1 := rest.dropWhile pyIsSpace
    if s.isEmpty then none
    else
      let w := r1.takeWhile isWordChar
      let r2 := r1.dropWhile isWordChar
      if w.isEmpty then none
      else
        match findModalStart w with
        | some wrest => some (acc, wrest ++ r2)
        | none => p2Go fuel (acc ++ s ++ w) r2

/-- Pattern-2 match attempt anchored at the current position. -/
def p2At (cs : List Char) : Option (List Char × List Char) :=
  let w0 := cs.takeWhile isWordChar
  let r0 := cs.dropWhile isWordChar
  if w0.isEmpty then none else p2Go (cs.length + 1) w0 r0

/-- The `re.findall` scan for pattern 2: captured groups of successive
non-overlapping leftmost matches. -/
def scanP2 : Nat → List Char → List String
  | 0, _ => []
  | _, [] => []
  | fuel + 1, cs =>
    match p2At cs with
    | some g => String.mk g.1 :: scanP2 fuel g.2
    | none => scanP2 fuel cs.tail

/-- Lazy-group loop of pattern 1's body: after the capture so far, try
the terminator alternatives `\s+user`, `\s+role`, `\s*,` in order,
otherwise absorb one more whitespace-run/word-run pair. -/
def p1Go : Nat → List Char → List Char → Option (List Char × List Char)
  | 0, _, _ => none
  | fuel + 1, acc, rest =>
    let ts := rest.takeWhile pyIsSpace
    let tr := rest.dropWhile pyIsSpace
    if !ts.isEmpty && "user".data.isPrefixOf tr then some (acc, tr.drop 4)
    else if !ts.isEmpty && "role".data.isPrefixOf tr then some (acc, tr.drop 4)
    else if (match tr with | c :: _ => c == ',' | [] => false) then some (acc, tr.tail)
    else if ts.isEmpty then none
    else
      let w := tr.takeWhile isWordChar
      if w.isEmpty then none
      else p1Go fuel (acc ++ ts ++ w) (tr.dropWhile isWordChar)

/-- The part of pattern 1 after the `as an?` / `for the` prefix:
`\s+(\w+(?:\s+\w+)*?)(?:\s+user|\s+role|\s*,)`. -/
def p1Body (r : List Char) : Option (List Char × List Char) :=
  let s := r.takeWhile pyIsSpace
  let r1 := r.dropWhile pyIsSpace
  if s.isEmpty then none
  else
    let w0 := r1.takeWhile isWordChar
    let r2 := r1.dropWhile isWordChar
    if w0.isEmpty then none else p1Go (r.length + 1) w0 r2

/-- Pattern-1 match attempt anchored at the current position
(`(?:as an?|for the)` tried as the literals `as an`, `as a`,
`for the` in backtracking order). -/
def p1At (cs : List Char) : Option (List Char × List Char) :=
  [("as an", 5), ("as a", 4), ("for the", 7)].findSome?
    (fun p => if p.1.data.isPrefixOf cs then p1Body (cs.drop p.2) else none)

/-- The `re.findall` scan for pattern 1. -/
def scanP1 : Nat → List Char → List String
  | 0, _ => []
  | _, [] => []
  | fuel + 1, cs =>
    match p1At cs with
    | some g => String.mk g.1 :: scanP1 fuel g.2
    | none => scanP1 fuel cs.tail

/-- The literal alternatives of pattern 3
(`(?:user|customer|admin|operator|manager|developer)s?`); none is a
prefix of another. -/
def p3Words : List String :=
  ["user", "customer", "admin", "operator", "manager", "developer"]

/-- Pattern-3 match attempt anchored at the current position (the
optional `s?` is greedy). -/
def p3At (cs : List Char) : Option (List Char × List Char) :=
  match p3Words.find? (fun w => w.data.isPrefixOf cs) with
  | some w =>
    match cs.drop w.length with
    | 's' :: r2 => some (w.data ++ ['s'], r2)
    | rest => some (w.data, rest)
  | none => none

/-- The `re.findall` scan for pattern 3 (no group, so whole matches). -/
def scanP3 : Nat → List Char → List String
  | 0, _ => []
  | _, [] => []
  | fuel + 1, cs =>
    match p3At cs with
    | some g => String.mk g.1 :: scanP3 fuel g.2
    | none => scanP3 fuel cs.tail

/-- The pooled, stripped, non-empty persona candidates of
`_extract_personas`, before `list(set(...))`. -/
def personaPool (text : String) : List String :=
  let t := (pyLower text).data
  let pool := scanP1 (t.length + 1) t ++ scanP2 (t.length + 1) t ++ scanP3 (t.length + 1) t
  pool.filterMap (fun p => let q := pyStrip p; if q == "" then none else some q)

/-- Embeds `_extract_personas`: pool, strip, deduplicate through the
set-enumeration parameter `dedup` (Python `list(set(...))`), keep at
most three. -/
def extractPersonas (dedup : List String → List String) (text : String) : List String :=
  (dedup (personaPool text)).take 3

/-- The property a faithful model of Python `list(set(...))` must
have: the result has no duplicates and exactly the members of the
input.  The enumeration order is implementation defined. -/
def AdmissibleDedup (d : List String → List String) : Prop :=
  ∀ xs, (d xs).Nodup ∧ ∀ a, a ∈ d xs ↔ a ∈ xs

/-- One admissible set enumeration: keep first occurrences. -/
def dedupKeepFirst : List String → List String
  | [] => []
  | x :: t => x :: (dedupKeepFirst t).filter (fun y => y != x)

/-- Another admissible set enumeration: first occurrences, reversed. -/
def dedupRev (xs : List String) : List String := (dedupKeepFirst xs).reverse

/-! ### Goal, benefit, acceptance criteria, priority number
(`_extract_goal`, `_extract_benefit`, `_generate_acceptance_criteria`,
`_map_priority_to_number`). -/

/-- Action-verb fallback set of `_extract_goal`. -/
def actionVerbs : List String :=
  ["authenticate", "login", "access", "view", "create", "update", "delete", "manage"]

/-- Scan `text.split()` for the first action verb, returning that word
and the following two (`' '.join(words[i:i+3])`). -/
def goalScan : List String → Option (List String)
  | [] => none
  | w :: t =>
    if actionVerbs.contains (pyLower w) then some ((w :: t).take 3) else goalScan t

/-- Embeds `_extract_goal`.  The spaCy dependency tagger is external: it is
modelled as `nlp : Option (String → Option (String × String))`, where
`none` is an absent model, and the inner `Option` is `some (verb
lemma, object)` exactly when the source finds both a main verb and a
main object (otherwise the source falls through to the keyword
fallback). -/
def extractGoal (nlp : Option (String → Option (String × String)))
    (text : String) : String :=
  let viaNlp : Option String :=
    match nlp with
    | some f =>
      match f text with
      | some vo => some (vo.1 ++ " " ++ vo.2)
      | none => none
    | none => none
  match viaNlp with
  | some g => g
  | none =>
    match goalScan (pySplitWs text) with
    | some ws => String.intercalate " " ws
    | none => ⟨text.data.take 50⟩

/-- Case-insensitive literal prefix test (for `re.IGNORECASE`). -/
def ciStarts : List Char → List Char → Bool
  | [], _ => true
  | _, [] => false
  | a :: t, b :: u => (asciiLower a == asciiLower b) && ciStarts t u

/-- Backtracking for `\s{min,}(.+)` after a matched literal: `sRev` is
the reversed maximal whitespace run still assigned to the whitespace
atom, `r` the rest.  Greedy whitespace gives characters back one at a
time until the `.+` capture can start with a non-newline character. -/
def captureGo (minSp : Nat) : List Char → List Char → Option (List Char)
  | sRev, r =>
    if minSp ≤ sRev.length && (match r with | c :: _ => c != '\n' | [] => false) then
      some (r.takeWhile (fun c => c != '\n'))
    else
      match sRev with
      | [] => none
      | c :: srest => captureGo minSp srest (c :: r)

/-- Match `\s{min,}(.+)` at the current position, returning the
capture. -/
def captureAfter (minSp : Nat) (after : List Char) : Option (List Char) :=
  captureGo minSp (after.takeWhile pyIsSpace).reverse (after.dropWhile pyIsSpace)

/-- Models `re.search` for `(?:lit1|lit2|...)\s{min,}(.+)` with
`re.IGNORECASE`: leftmost position wins, alternatives tried in order at
each position. -/
def searchCapture (lits : List String) (minSp : Nat) : Nat → List Char → Option (List Char)
  | 0, _ => none
  | fuel + 1, cs =>
    match lits.findSome?
        (fun lit => if ciStarts lit.data cs then captureAfter minSp (cs.drop lit.length) else none) with
    | some cap => some cap
    | none =>
      match cs with
      | [] => none
      | _ :: t => searchCapture lits minSp fuel t

/-- Embeds `_extract_benefit`: the two regex searches on the original text
(case-insensitive), then keyword defaults on the lower-cased text. -/
def extractBenefit (text : String) : String :=
  let cs := text.data
  match searchCapture ["so that", "to enable", "in order to", "to allow", "to provide"]
      1 (cs.length + 1) cs with
  | some cap => pyStrip ⟨cap⟩
  | none =>
    match searchCapture ["benefit:", "value:", "advantage:"] 0 (cs.length + 1) cs with
    | some cap => pyStrip ⟨cap⟩
    | none =>
      let t := pyLower text
      if substrB "authentication" t then "I can securely access the system"
      else if substrB "search" t then "I can quickly find relevant information"
      else if substrB "data" t then "I can manage my information effectively"
      else "I can accomplish my goals efficiently"

/-- Embeds `_generate_acceptance_criteria`. -/
def generateAcceptanceCriteria (req : PReq) : List String :=
  let t := pyLower req.description
  let criteria :=
    if req.rtype == "functional" then
      if substrB "authentication" t then
        ["Given valid credentials, user can log in successfully",
         "Given invalid credentials, system shows error message",
         "Given successful login, user is redirected to dashboard"]
      else if substrB "search" t then
        ["Given search query, system returns relevant results",
         "Given no matches, system shows 'no results' message",
         "Given search results, user can navigate to items"]
      else []
    else []
  let criteria :=
    if criteria.isEmpty then
      ["Given the preconditions are met, the system performs the required action",
       "Given error conditions, the system handles them gracefully",
       "Given successful completion, the system confirms the result"]
    else criteria
  criteria.take 5

/-- Embeds `_map_priority_to_number`: `{'critical': 1, 'high': 2, 'medium': 3,
'low': 4}.get(priority.lower(), 3)`. -/
def mapPriorityToNumber (p : String) : Nat :=
  if pyLower p == "critical" then 1
  else if pyLower p == "high" then 2
  else if pyLower p == "medium" then 3
  else if pyLower p == "low" then 4
  else 3

/-- The `UserStory` dataclass. -/
structure UserStory where
  persona : String
  goal : String
  benefit : String
  acceptanceCriteria : List String
  priority : Nat
deriving DecidableEq, Repr

/-- Embeds `_generate_user_story`. -/
def generateUserStory (nlp : Option (String → Option (String × String)))
    (req : PReq) (persona : String) : UserStory :=
  ⟨persona, extractGoal nlp req.description, extractBenefit req.description,
   generateAcceptanceCriteria req, mapPriorityToNumber req.priority⟩

/-- Embeds `create_user_stories`: one story per (requirement, persona) pair,
with default persona `"user"` when extraction finds none. -/
def createUserStories (dedup : List String → List String)
    (nlp : Option (String → Option (String × String)))
    (reqs : List PReq) : List UserStory :=
  reqs.flatMap (fun req =>
    let ps := extractPersonas dedup req.description
    let ps := if ps.isEmpty then ["user"] else ps
    ps.map (generateUserStory nlp req))

/-! ### Dependency analyzer (`analyze_dependencies`)

The four explicit-dependency regexes (e.g. `depends on\s+(REQ-\d+)`)
are matched against the lower-cased description exactly as the source
does: the literal part is case sensitive, `\s+` and `\d+` are forced
maximal by their follow set, and the capture is the `REQ-` literal
plus the digit run. -/

/-- Match one explicit-dependency pattern anchored at the current
position: the literal, then `\s+`, then the capture `(REQ-\d+)`. -/
def depAt (lit : List Char) (cs : List Char) : Option (String × List Char) :=
  if lit.isPrefixOf cs then
    let after := cs.drop lit.length
    let s := after.takeWhile pyIsSpace
    let r1 := after.dropWhile pyIsSpace
    if s.isEmpty then none
    else if "REQ-".data.isPrefixOf r1 then
      let r2 := r1.drop 4
      let ds := r2.takeWhile isAsciiDigit
      if ds.isEmpty then none
      else some ("REQ-" ++ String.mk ds, r2.drop ds.length)
    else none
  else none

/-- The `re.findall` scan for one explicit-dependency pattern. -/
def scanDeps (lit : List Char) : Nat → List Char → List String
  | 0, _ => []
  | _, [] => []
  | fuel + 1, cs =>
    match depAt lit cs with
    | some g => g.1 :: scanDeps lit fuel g.2
    | none => scanDeps lit fuel cs.tail

/-- All explicit-dependency captures over the lower-cased description
`t`, the four patterns in source order, results concatenated. -/
def explicitDeps (t : String) : List String :=
  let cs := t.data
  scanDeps "depends on".data (cs.length + 1) cs
  ++ scanDeps "requires".data (cs.length + 1) cs
  ++ scanDeps "after".data (cs.length + 1) cs
  ++ scanDeps "following".data (cs.length + 1) cs

/-- Insertion-ordered Python `dict` model: insert or overwrite in
place. -/
def dictInsert {α : Type} (m : List (String × α)) (k : String) (v : α) :
    List (String × α) :=
  match m with
  | [] => [(k, v)]
  | p :: t => if p.1 == k then (k, v) :: t else p :: dictInsert t k v

/-- Python `dict` lookup. -/
def dictFind {α : Type} (m : List (String × α)) (k : String) : Option α :=
  (m.find? (fun p => p.1 == k)).map (fun p => p.2)

/-- Python `dict.get(k, d)`. -/
def dictGet {α : Type} (m : List (String × α)) (k : String) (d : α) : α :=
  (dictFind m k).getD d

/-- The dependency list computed for one requirement inside the
`analyze_dependencies` loop: explicit regex captures, then the
auth-before-access heuristic (skipped entirely when the description
mentions login or authentication). -/
def perReqDeps (reqs : List PReq) (r : PReq) : List String :=
  let t := pyLower r.description
  let explicit := explicitDeps t
  if substrB "login" t || substrB "authentication" t then explicit
  else if substrB "user" t || substrB "access" t || substrB "manage" t then
    explicit ++ (reqs.filter (fun q => substrB "auth" (pyLower q.description))).map (fun q => q.id)
  else explicit

/-- Embeds `analyze_dependencies`: a dict from requirement id to its
dependency list. -/
def analyzeDependencies (reqs : List PReq) : List (String × List String) :=
  reqs.foldl (fun m r => dictInsert m r.id (perReqDeps reqs r)) []

/-! ### Traceability builder (`generate_traceability_matrix`)

The project file tree is external: it is modelled as a list of
(project-relative path, text content) pairs in traversal order. -/

/-- One scanned project file. -/
structure PFile where
  path : String
  content : String
deriving DecidableEq, Repr

/-- The four bucket lists kept per requirement id. -/
structure TraceEntry where
  features : List String
  components : List String
  tests : List String
  documentation : List String
deriving DecidableEq, Repr

/-- Models `file_path.suffix in ['.py', '.js', '.ts', '.md']` for ordinary
relative file paths. -/
def extOk (p : String) : Bool :=
  [".py", ".js", ".ts", ".md"].any (fun e => pyEndsWith p e)

/-- The scan for one requirement id over the file tree: a hit files the
path into tests, documentation or features (first matching rule). -/
def traceFor (tree : List PFile) (reqId : String) : TraceEntry :=
  tree.foldl
    (fun e f =>
      if extOk f.path && substrB reqId f.content then
        if substrB "test" (pyLower f.path) then
          ⟨e.features, e.components, e.tests ++ [f.path], e.documentation⟩
        else if pyEndsWith f.path ".md" then
          ⟨e.features, e.components, e.tests, e.documentation ++ [f.path]⟩
        else ⟨e.features ++ [f.path], e.components, e.tests, e.documentation⟩
      else e)
    ⟨[], [], [], []⟩

/-- Embeds `generate_traceability_matrix`. -/
def generateTraceabilityMatrix (tree : List PFile) (reqs : List PReq) :
    List (String × TraceEntry) :=
  reqs.foldl (fun m r => dictInsert m r.id (traceFor tree r.id)) []

/-! ### Persistence adapter (`save_requirements_to_database`)

The SQLite store is modelled as the snapshot the run leaves behind:
the four tables after the delete-all-then-insert sequence.  The
dependency and traceability tables are deleted but never re-inserted
by the source, so they are always empty in the snapshot.  `json.dumps`
is modelled with its default separators and `ensure_ascii` escaping on
the ASCII range; `datetime.now().isoformat()` is the external clock
parameter `nowIso`, held constant during a run. -/

/-- Hex digit for JSON `\uXXXX` escapes. -/
def hexCh (n : Nat) : Char :=
  match n with
  | 0 => '0' | 1 => '1' | 2 => '2' | 3 => '3' | 4 => '4'
  | 5 => '5' | 6 => '6' | 7 => '7' | 8 => '8' | 9 => '9'
  | 10 => 'a' | 11 => 'b' | 12 => 'c' | 13 => 'd' | 14 => 'e'
  | 15 => 'f' | _ => '*'

/-- JSON escaping of one character (`json.dumps` default,
`ensure_ascii=True`, code points below 0x10000). -/
def jsonEscChar (c : Char) : List Char :=
  if c == '"' then ['\\', '"']
  else if c == '\\' then ['\\', '\\']
  else if c == '\n' then ['\\', 'n']
  else if c == '\r' then ['\\', 'r']
  else if c == '\t' then ['\\', 't']
  else if c == '\x08' then ['\\', 'b']
  else if c == '\x0c' then ['\\', 'f']
  else if c.toNat < 32 || 126 < c.toNat then
    ['\\', 'u', hexCh (c.toNat / 4096 % 16), hexCh (c.toNat / 256 % 16),
     hexCh (c.toNat / 16 % 16), hexCh (c.toNat % 16)]
  else [c]

/-- Models `json.dumps` of a string. -/
def jsonStr (s : String) : String :=
  "\"" ++ String.mk (s.data.flatMap jsonEscChar) ++ "\""

/-- Models `json.dumps` of a list of strings (default separator is a comma
and a space). -/
def jsonList (xs : List String) : String :=
  "[" ++ String.intercalate ", " (xs.map jsonStr) ++ "]"

/-- Models `json.dumps` of a traceability entry dict (insertion-ordered
keys). -/
def jsonTrace (t : TraceEntry) : String :=
  "\x7b\"features\": " ++ jsonList t.features
  ++ ", \"components\": " ++ jsonList t.components
  ++ ", \"tests\": " ++ jsonList t.tests
  ++ ", \"documentation\": " ++ jsonList t.documentation ++ "\x7d"

/-- One row of the `requirements` table, fields in the dataclass /
INSERT order. -/
structure ReqRow where
  id : String
  title : String
  description : String
  priority : String
  status : String
  acceptanceCriteria : String
  dependencies : String
  userStory : String
  businessValue : String
  technicalNotes : String
  traceabilityMatrix : String
  createdAt : String
  updatedAt : String
  tags : String
deriving DecidableEq, Repr

/-- One row of the `user_stories` table (without the autoincrement
key), fields in INSERT order. -/
structure StoryRow where
  requirementId : String
  persona : String
  goal : String
  benefit : String
  acceptanceCriteria : String
  priority : Nat
  createdAt : String
deriving DecidableEq, Repr

/-- The requirement row built and inserted for one parsed
requirement. -/
def buildReqRow (deps : List (String × List String))
    (trace : List (String × TraceEntry)) (nowIso : String) (r : PReq) : ReqRow :=
  ⟨r.id, r.title, r.description, r.priority, "pending", jsonList [],
   jsonList (dictGet deps r.id []), "", "", "",
   (match dictFind trace r.id with
    | some t => jsonTrace t
    | none => "\x7b\x7d"),
   nowIso, nowIso, jsonList []⟩

/-- The user-story row built and inserted for one story: the
requirement linkage is the hard-coded placeholder `'REQ-001'`. -/
def buildStoryRow (nowIso : String) (s : UserStory) : StoryRow :=
  ⟨"REQ-001", s.persona, s.goal, s.benefit, jsonList s.acceptanceCriteria,
   s.priority, nowIso⟩

/-- The `user_stories` table content after a run. -/
def storyRows (stories : List UserStory) (nowIso : String) : List StoryRow :=
  stories.map (buildStoryRow nowIso)

/-- The persisted snapshot: the four tables after the
delete-all-then-insert-all sequence. -/
structure Snapshot where
  requirements : List ReqRow
  userStories : List StoryRow
  requirementDependencies : List String
  traceability : List String
deriving DecidableEq, Repr

/-- Embeds `save_requirements_to_database` as the snapshot it leaves in the
store. -/
def saveRequirementsToDatabase (reqs : List PReq) (stories : List UserStory)
    (deps : List (String × List String)) (trace : List (String × TraceEntry))
    (nowIso : String) : Snapshot :=
  ⟨reqs.map (buildReqRow deps trace nowIso), storyRows stories nowIso, [], []⟩

/-! ### Document generator
(`generate_functional_requirements_document`). -/

/-- ASCII model of Python `str.title()`. -/
def titleGo : Bool → List Char → List Char
  | _, [] => []
  | prev, c :: t =>
    if isAsciiAlpha c then
      (if prev then asciiLower c else asciiUpper c) :: titleGo true t
    else c :: titleGo false t

/-- Python `str.title()` (ASCII model). -/
def pyTitle (s : String) : String := ⟨titleGo false s.data⟩

/-- Count of requirements with a given priority. -/
def countPriority (reqs : List PReq) (p : String) : Nat :=
  (reqs.filter (fun r => r.priority == p)).length

/-- The sorted scope areas of section 1.2 (`sorted(areas)` over the
keyword-derived set; the four possible area names listed here are in
their sorted order). -/
def areasOf (reqs : List PReq) : List String :=
  let has := fun kw => reqs.any (fun r => substrB kw (pyLower r.description))
  (if has "api" then ["API Services"] else [])
  ++ (if has "data" then ["Data Management"] else [])
  ++ (if has "search" then ["Search and Discovery"] else [])
  ++ (if has "authentication" then ["User Authentication and Authorization"] else [])

/-- Section 3 body for one requirement. -/
def reqSection (deps : List (String × List String)) (pTitle : String) (r : PReq) : String :=
  "#### " ++ r.id ++ ": " ++ r.title ++ "\n"
  ++ "**Priority**: " ++ pTitle ++ "  \n"
  ++ "**Description**: " ++ r.description ++ "\n\n"
  ++ (if r.ambiguities.isEmpty then ""
      else "**Potential Ambiguities**:\n"
        ++ String.join (r.ambiguities.map (fun a => "- " ++ a ++ "\n")) ++ "\n")
  ++ (if r.suggestions.isEmpty then ""
      else "**Suggested Improvements**:\n"
        ++ String.join (r.suggestions.map (fun s => "- " ++ s ++ "\n")) ++ "\n")
  ++ (match dictFind deps r.id with
      | some l =>
        if l.isEmpty then ""
        else "**Dependencies**: " ++ String.intercalate ", " l ++ "\n\n"
      | none => "")
  ++ "---\n\n"

/-- Section 3 group for one priority (omitted when no requirement has
that priority); `idx` is the fixed position of the priority in
`priority_order`. -/
def prioritySection (deps : List (String × List String)) (reqs : List PReq)
    (idx : Nat) (p : String) : String :=
  let group := reqs.filter (fun r => r.priority == p)
  if group.isEmpty then ""
  else
    "### 3." ++ natStr (idx + 1) ++ " " ++ pyTitle p ++ " Priority Requirements\n\n"
    ++ String.join (group.map (reqSection deps (pyTitle p)))

/-- Section 4 entries, numbered from 1 in synthesis order. -/
def storiesSection : Nat → List UserStory → String
  | _, [] => ""
  | i, s :: t =>
    "### US-" ++ zfill 3 (natStr i) ++ ": " ++ pyTitle s.persona ++ " Story\n"
    ++ "**As a** " ++ s.persona ++ ", **I want** " ++ s.goal
    ++ " **so that** " ++ s.benefit ++ "\n\n"
    ++ "**Acceptance Criteria**:\n"
    ++ String.join (s.acceptanceCriteria.map (fun c => "- " ++ c ++ "\n"))
    ++ "\n**Priority**: " ++ natStr s.priority ++ "/5\n\n"
    ++ "---\n\n"
    ++ storiesSection (i + 1) t

/-- Section 5 dependency table rows, over the dict in insertion
order. -/
def depsTable (deps : List (String × List String)) : String :=
  String.join (deps.map (fun p =>
    "| " ++ p.1 ++ " | "
    ++ (if p.2.isEmpty then "None" else String.intercalate ", " p.2) ++ " |\n"))

/-- Embeds `generate_functional_requirements_document`.  Here `nowFmt` is the
external clock formatted as in the source
(`strftime('%Y-%m-%d %H:%M:%S')`). -/
def generateFunctionalRequirementsDocument (projName nowFmt : String)
    (reqs : List PReq) (stories : List UserStory)
    (deps : List (String × List String)) : String :=
  "# Functional Requirements Specification\n\n"
  ++ "**Project**: " ++ projName ++ "\n"
  ++ "**Version**: 1.0\n"
  ++ "**Date**: " ++ nowFmt ++ "\n"
  ++ "**Status**: Draft\n"
  ++ "**Generated by**: Requirements Engineer Agent\n\n"
  ++ "## 1. Executive Summary\n\n"
  ++ "### 1.1 Purpose\n"
  ++ "This document defines the functional requirements for " ++ projName
  ++ " as analyzed and structured by the Requirements Engineer Agent.\n\n"
  ++ "### 1.2 Scope\n"
  ++ "The system encompasses the following key areas:\n"
  ++ String.join ((areasOf reqs).map (fun a => "- **" ++ a ++ "**\n"))
  ++ "\n\n## 2. Requirements Overview\n\n"
  ++ "### 2.1 Summary Statistics\n"
  ++ "- **Total Requirements**: " ++ natStr reqs.length ++ "\n"
  ++ "- **Critical Priority**: " ++ natStr (countPriority reqs "critical") ++ "\n"
  ++ "- **High Priority**: " ++ natStr (countPriority reqs "high") ++ "\n"
  ++ "- **Medium Priority**: " ++ natStr (countPriority reqs "medium") ++ "\n"
  ++ "- **Low Priority**: " ++ natStr (countPriority reqs "low") ++ "\n\n"
  ++ "## 3. Functional Requirements\n\n"
  ++ prioritySection deps reqs 0 "critical"
  ++ prioritySection deps reqs 1 "high"
  ++ prioritySection deps reqs 2 "medium"
  ++ prioritySection deps reqs 3 "low"
  ++ "## 4. User Stories\n\n"
  ++ storiesSection 1 stories
  ++ "## 5. Requirement Dependencies\n\n"
  ++ "| Requirement | Dependencies |\n"
  ++ "|-------------|-------------|\n"
  ++ depsTable deps
  ++ "\n\n## 6. Implementation Recommendations\n\n"
  ++ "### 6.1 Development Phases\n"
  ++ "1. **Phase 1**: Implement critical priority requirements\n"
  ++ "2. **Phase 2**: Add high priority features\n"
  ++ "3. **Phase 3**: Complete medium and low priority items\n\n"
  ++ "### 6.2 Quality Assurance\n"
  ++ "- Each requirement should have corresponding acceptance tests\n"
  ++ "- Traceability should be maintained throughout development\n"
  ++ "- Regular requirement reviews should be conducted\n\n"
  ++ "### 6.3 Risk Mitigation\n"
  ++ "- Address ambiguous requirements first\n"
  ++ "- Implement dependency requirements before dependent ones\n"
  ++ "- Regular stakeholder validation\n\n"
  ++ "## 7. Glossary\n\n"
  ++ "Terms and definitions will be maintained as requirements evolve.\n\n"
  ++ "---\n"
  ++ "*This document was generated by the Requirements Engineer Agent and should be reviewed by stakeholders.*\n"

/-! ### Memory-service collaborator (`store_in_memory_service`)

The external memory client is `Option MemClient`; a call either
succeeds or raises (`Except.error`), and the source has no handler, so
an error propagates. `importance` (a float literal in the source) is
recorded in tenths. -/

/-- One record pushed to the memory collaborator. -/
structure MemRecord where
  content : String
  tags : List String
  importanceTenths : Nat
deriving DecidableEq, Repr

/-- The external memory collaborator: each `store_memory` call either
acknowledges or raises. -/
def MemClient : Type := MemRecord → Except Unit Unit

/-- Models `json.dumps(summary, indent=2)` for the run-summary dict. -/
def summaryJson (proj nowIso : String) (reqs : List PReq)
    (stories : List UserStory) : String :=
  "\x7b\n  \"total_requirements\": " ++ natStr reqs.length
  ++ ",\n  \"critical_count\": " ++ natStr (countPriority reqs "critical")
  ++ ",\n  \"user_stories_count\": " ++ natStr stories.length
  ++ ",\n  \"project\": " ++ jsonStr proj
  ++ ",\n  \"analysis_date\": " ++ jsonStr nowIso
  ++ "\n\x7d"

/-- The high-level analysis record. -/
def summaryRecord (proj nowIso : String) (reqs : List PReq)
    (stories : List UserStory) : MemRecord :=
  ⟨"Requirements analysis for " ++ proj ++ ": " ++ summaryJson proj nowIso reqs stories,
   ["project:" ++ proj, "type:requirements-analysis",
    "agent:requirements-engineer", "priority:high"], 8⟩

/-- The per-critical-requirement record. -/
def critRecord (proj : String) (r : PReq) : MemRecord :=
  ⟨"Critical Requirement " ++ r.id ++ ": " ++ r.description,
   ["project:" ++ proj, "requirement:" ++ r.id,
    "type:critical-requirement", "agent:requirements-engineer"], 9⟩

/-- The per-critical-requirement store loop; the first raising call
propagates. -/
def storeCriticals (f : MemClient) (proj : String) :
    List PReq → Except Unit (List MemRecord)
  | [] => .ok []
  | r :: t =>
    if r.priority == "critical" then
      match f (critRecord proj r) with
      | .error e => .error e
      | .ok _ => (storeCriticals f proj t).map (fun l => critRecord proj r :: l)
    else storeCriticals f proj t

/-- Embeds `store_in_memory_service`: a no-op without a client; otherwise the
summary record then one record per critical requirement, with no
exception handling.  Returns the records successfully delivered. -/
def storeInMemoryService (mc : Option MemClient) (proj nowIso : String)
    (reqs : List PReq) (stories : List UserStory) : Except Unit (List MemRecord) :=
  match mc with
  | none => .ok []
  | some f =>
    let sRec := summaryRecord proj nowIso reqs stories
    match f sRec with
    | .error e => .error e
    | .ok _ => (storeCriticals f proj reqs).map (fun l => sRec :: l)

/-! ### Main pipeline (`process_requirements`) -/

/-- The dict returned by `process_requirements`. -/
structure ResultDict where
  requirements : List PReq
  userStories : List UserStory
  dependencies : List (String × List String)
  traceability : List (String × TraceEntry)
  outputFile : String
  totalRequirements : Nat
  criticalRequirements : Nat
  ambiguitiesFound : Nat
  suggestionsCount : Nat
deriving DecidableEq, Repr

/-- The externally visible writes of one run: the database snapshot
and the rendered document at its fixed project-relative path. -/
structure SideEffects where
  db : Snapshot
  docPath : String
  docText : String
deriving DecidableEq, Repr

/-- Embeds `process_requirements`: the full pipeline.  The first component is
the state written to disk and database — produced before the memory
step — and the second is the returned result, which is an error
exactly when the uncaught memory-collaborator call raises. -/
def processRequirements (st wt : String → List String)
    (dedup : List String → List String)
    (nlp : Option (String → Option (String × String)))
    (mc : Option MemClient) (tree : List PFile)
    (projName nowIso nowFmt text : String) :
    SideEffects × Except Unit ResultDict :=
  let reqs := parseNaturalLanguageRequirements st wt text
  let stories := createUserStories dedup nlp reqs
  let deps := analyzeDependencies reqs
  let trace := generateTraceabilityMatrix tree reqs
  let snap := saveRequirementsToDatabase reqs stories deps trace nowIso
  let doc := generateFunctionalRequirementsDocument projName nowFmt reqs stories deps
  (⟨snap, "source/reqs/functional-requirements.md", doc⟩,
   (storeInMemoryService mc projName nowIso reqs stories).map (fun _ =>
     ⟨reqs, stories, deps, trace, "source/reqs/functional-requirements.md",
      reqs.length, countPriority reqs "critical",
      (reqs.map (fun r => r.ambiguities.length)).sum,
      (reqs.map (fun r => r.suggestions.length)).sum⟩))

/-! ### Specification-side definitions and concrete collaborators

`detectPrioritySpec` is written from the specification's words (first
matching bucket over the keyword table in its fixed order, then the
two-stage fallback) to be compared with the source-derived
`detectPriority`.  The concrete tokenizers and set enumerations below
instantiate the external collaborators in witnesses. -/

/-- Priority detection as the specification words it: the first bucket
of the keyword table (in the fixed iteration order critical, high,
medium, low) containing a keyword of the sentence wins; only if no
bucket matches does the fallback apply. -/
def detectPrioritySpec (text : String) : String :=
  let t := pyLower text
  match priorityKeywords.find? (fun p => p.2.any (fun k => substrB k t)) with
  | some p => p.1
  | none =>
    if ["must", "shall", "critical", "essential"].any (fun k => substrB k t) then "critical"
    else if ["should", "important"].any (fun k => substrB k t) then "high"
    else "medium"

/-- The sequence number encoded in a requirement id (the digits after
`"REQ-"`, leading zeros ignored). -/
def idVal (id : String) : Nat := parseVal (id.data.drop 4)

/-- A sentence tokenizer for single-sentence inputs. -/
def stOne : String → List String := fun t => [t]

/-- Split a trailing period off one whitespace-delimited token. -/
def splitTok (w : String) : List String :=
  if pyEndsWith w "." && 1 < w.data.length then [String.mk w.data.dropLast, "."] else [w]

/-- A simple concrete word tokenizer: whitespace split with trailing
periods as separate tokens. -/
def wtSimple (s : String) : List String := (pySplitWs s).flatMap splitTok

/-- A memory client whose every call raises. -/
def failingClient : MemClient := fun _ => .error ()

/-- Concrete requirement whose description carries an explicit textual
dependency reference of the form `after REQ-<n>`. -/
def c1Req : PReq :=
  ⟨"REQ-002", "The export must run after REQ-001 completes",
   "The export must run after REQ-001 completes",
   "The export must run after REQ-001 completes", "critical", "functional", [], []⟩

/-- Concrete requirement whose description yields the two personas
`admin` and `user`. -/
def c3Req : PReq :=
  ⟨"REQ-001", "admin and user data access", "admin and user data access",
   "admin and user data access", "high", "functional", [], []⟩

/-- The single-sentence input of the specification's worked example. -/
def exampleSentence : String :=
  "The system shall authenticate users when they provide valid credentials."

/-- The requirement record the pipeline produces for
`exampleSentence`. -/
def exampleParsedReq : PReq :=
  ⟨"REQ-001", exampleSentence,
   "The system shall authenticate users when they prov...",
   exampleSentence, "critical", "functional", [],
   ["Add acceptance criteria to define 'done'",
    "Consider user story format: 'As a [persona], I want [goal] so that [benefit]'"]⟩

/-- A small concrete pipeline input used to instantiate hypotheses. -/
def c2Text : String := "Users must manage data safely."

/-! ## Helper lemmas -/

theorem dVal_digitCh {n : Nat} (h : n < 10) : dVal (digitCh n) = n := by
  interval_cases n <;> rfl

theorem natDigitsAux_append (fuel : Nat) :
    ∀ n acc, natDigitsAux fuel n acc = natDigitsAux fuel n [] ++ acc := by
  induction fuel with
  | zero => intro n acc; rfl
  | succ f ih =>
    intro n acc
    by_cases h : n < 10
    · simp [natDigitsAux, h]
    · simp only [natDigitsAux, if_neg h]
      rw [ih (n / 10) (digitCh (n % 10) :: acc), ih (n / 10) [digitCh (n % 10)]]
      simp

theorem parseVal_append_one (xs : List Char) (c : Char) :
    parseVal (xs ++ [c]) = 10 * parseVal xs + dVal c := by
  simp [parseVal, List.foldl_append]

theorem parseVal_natDigitsAux :
    ∀ fuel n, n < fuel → parseVal (natDigitsAux fuel n []) = n := by
  intro fuel
  induction fuel with
  | zero => intro n h; omega
  | succ f ih =>
    intro n h
    by_cases h10 : n < 10
    · simp [natDigitsAux, h10, parseVal, dVal_digitCh h10]
    · simp only [natDigitsAux, if_neg h10]
      rw [natDigitsAux_append, parseVal_append_one, ih (n / 10) (by omega),
        dVal_digitCh (by omega)]
      omega

theorem parseVal_natDigits (n : Nat) : parseVal (natDigits n) = n :=
  parseVal_natDigitsAux (n + 1) n (by omega)

theorem parseVal_replicate_zero (k : Nat) (xs : List Char) :
    parseVal (List.replicate k '0' ++ xs) = parseVal xs := by
  induction k with
  | zero => simp
  | succ m ih =>
    have : (List.replicate (m + 1) '0' ++ xs)
        = '0' :: (List.replicate m '0' ++ xs) := by simp [List.replicate_succ]
    rw [this]
    show (List.replicate m '0' ++ xs).foldl (fun a c => 10 * a + dVal c) (10 * 0 + dVal '0') = _
    have h0 : (10 * 0 + dVal '0') = 0 := rfl
    rw [h0]
    exact ih

theorem parseVal_zfill (s : String) : parseVal (zfill 3 s).data = parseVal s.data := by
  unfold zfill
  split
  · exact parseVal_replicate_zero _ _
  · rfl

theorem idVal_reqIdOf (i : Nat) : idVal (reqIdOf i) = i + 1 := by
  unfold idVal reqIdOf
  have hdata : ("REQ-" ++ zfill 3 (natStr (i + 1))).data
      = "REQ-".data ++ (zfill 3 (natStr (i + 1))).data := by
    simp [String.data_append]
  rw [hdata]
  have h4 : "REQ-".data.length = 4 := rfl
  rw [show (4 : Nat) = "REQ-".data.length from rfl, List.drop_left]
  rw [parseVal_zfill]
  exact parseVal_natDigits (i + 1)

theorem reqIdOf_inj {i j : Nat} (h : reqIdOf i = reqIdOf j) : i = j := by
  have := congrArg idVal h
  rw [idVal_reqIdOf, idVal_reqIdOf] at this
  omega

theorem extractRequirementInfo_isreq (w : List String) (s : String) :
    (extractRequirementInfo w s).isRequirement
      = reqIndicators.any (fun ind => w.contains ind) := by
  unfold extractRequirementInfo
  split
  · rename_i h
    exact h.symm
  · rename_i h
    rw [Bool.not_eq_true] at h
    exact h.symm

theorem parseStep_some {wt : String → List String} {i : Nat} {s : String} {r : PReq}
    (h : parseStep wt (i, s) = some r) :
    r.id = reqIdOf i ∧ r.rawText = s ∧ 5 ≤ (pySplitWs s).length ∧
      reqIndicators.any (fun ind => (wt (pyLower s)).contains ind) = true := by
  unfold parseStep at h
  by_cases h5 : (pySplitWs s).length < 5
  · rw [if_pos h5] at h; cases h
  · rw [if_neg h5] at h
    dsimp only at h
    by_cases hr : (extractRequirementInfo (wt (pyLower s)) s).isRequirement = true
    · rw [if_pos hr] at h
      cases h
      refine ⟨rfl, rfl, by omega, ?_⟩
      rw [← extractRequirementInfo_isreq (wt (pyLower s)) s]
      exact hr
    · rw [if_neg hr] at h; cases h

theorem le_fst_of_mem_enumFrom {α : Type} :
    ∀ {l : List α} {k : Nat} {q : Nat × α}, q ∈ l.enumFrom k → k ≤ q.1 := by
  intro l
  induction l with
  | nil => intro k q h; cases h
  | cons a t ih =>
    intro k q h
    cases h with
    | head => exact Nat.le_refl _
    | tail _ h => exact Nat.le_of_lt (Nat.lt_of_lt_of_le (Nat.lt_succ_self k) (ih h))

theorem pairwise_fst_lt_enumFrom {α : Type} :
    ∀ (l : List α) (k : Nat), (l.enumFrom k).Pairwise (fun p q => p.1 < q.1) := by
  intro l
  induction l with
  | nil => intro k; exact List.Pairwise.nil
  | cons a t ih =>
    intro k
    refine List.Pairwise.cons ?_ (ih (k + 1))
    intro q hq
    exact Nat.lt_of_lt_of_le (Nat.lt_succ_self k) (le_fst_of_mem_enumFrom hq)

theorem pairwise_fst_lt_enum {α : Type} (l : List α) :
    l.enum.Pairwise (fun p q => p.1 < q.1) :=
  pairwise_fst_lt_enumFrom l 0

/-- Every requirement in the parse output comes from some enumerated
sentence through `parseStep`. -/
theorem mem_parseSentences {wt : String → List String} {sents : List String} {r : PReq}
    (h : r ∈ parseSentences wt sents) :
    ∃ p ∈ sents.enum, parseStep wt p = some r := by
  unfold parseSentences at h
  exact List.mem_filterMap.1 h

/-- The parse output is pairwise strictly increasing in the sequence
number decoded from the requirement id. -/
theorem parseSentences_pairwise (wt : String → List String) (sents : List String) :
    (parseSentences wt sents).Pairwise (fun a b => idVal a.id < idVal b.id) := by
  unfold parseSentences
  refine List.Pairwise.filterMap (parseStep wt) ?_ (pairwise_fst_lt_enum sents)
  intro p q hpq a ha b hb
  obtain ⟨i, s⟩ := p
  obtain ⟨j, u⟩ := q
  rw [Option.mem_def] at ha hb
  have hpa := parseStep_some ha
  have hqb := parseStep_some hb
  rw [hpa.1, hqb.1, idVal_reqIdOf, idVal_reqIdOf]
  have hij : i < j := hpq
  omega

theorem parseSentences_nodup (wt : String → List String) (sents : List String) :
    ((parseSentences wt sents).map (fun r => r.id)).Nodup := by
  have h := parseSentences_pairwise wt sents
  rw [List.Nodup, List.pairwise_map]
  refine h.imp ?_
  intro a b hab
  intro hc
  rw [hc] at hab
  omega

theorem mem_dedupKeepFirst : ∀ (xs : List String) (a : String),
    a ∈ dedupKeepFirst xs ↔ a ∈ xs := by
  intro xs
  induction xs with
  | nil => intro a; simp [dedupKeepFirst]
  | cons x t ih =>
    intro a
    simp only [dedupKeepFirst, List.mem_cons, List.mem_filter, bne_iff_ne, ih]
    by_cases h : a = x <;> simp [h]

theorem nodup_dedupKeepFirst : ∀ xs : List String, (dedupKeepFirst xs).Nodup := by
  intro xs
  induction xs with
  | nil => exact List.Pairwise.nil
  | cons x t ih =>
    refine List.Nodup.cons ?_ (List.Nodup.filter _ ih)
    intro hmem
    have := (List.mem_filter.1 hmem).2
    simp [bne_iff_ne] at this

theorem admissible_dedupKeepFirst : AdmissibleDedup dedupKeepFirst := by
  intro xs
  exact ⟨nodup_dedupKeepFirst xs, fun a => mem_dedupKeepFirst xs a⟩

theorem admissible_dedupRev : AdmissibleDedup dedupRev := by
  intro xs
  constructor
  · exact List.nodup_reverse.2 (nodup_dedupKeepFirst xs)
  · intro a
    unfold dedupRev
    rw [List.mem_reverse]
    exact mem_dedupKeepFirst xs a

theorem flatMap_perm_of_pointwise {α β : Type} (f g : α → List β) :
    ∀ (l : List α), (∀ x ∈ l, (f x).Perm (g x)) → (l.flatMap f).Perm (l.flatMap g) := by
  intro l
  induction l with
  | nil => intro _; simp
  | cons a t ih =>
    intro h
    simp only [List.flatMap_cons]
    exact (h a (List.mem_cons_self a t)).append
      (ih (fun x hx => h x (List.mem_cons_of_mem a hx)))

/-- For any two admissible set enumerations, the per-requirement
persona lists of `create_user_stories` are permutations of one another
as long as the deduplicated pool is not truncated by the
three-persona cap. -/
theorem extractPersonas_perm {d₁ d₂ : List String → List String}
    (h₁ : AdmissibleDedup d₁) (h₂ : AdmissibleDedup d₂) (text : String)
    (hlen : (d₁ (personaPool text)).length ≤ 3) :
    (extractPersonas d₁ text).Perm (extractPersonas d₂ text) := by
  unfold extractPersonas
  have hp : (d₁ (personaPool text)).Perm (d₂ (personaPool text)) := by
    refine (List.perm_ext_iff_of_nodup (h₁ (personaPool text)).1
      (h₂ (personaPool text)).1).2 ?_
    intro a
    rw [(h₁ (personaPool text)).2 a, (h₂ (personaPool text)).2 a]
  rw [List.take_of_length_le hlen, List.take_of_length_le (hp.length_eq ▸ hlen)]
  exact hp

/-! ## Claim theorems -/

/-- C5: for every input text (and any behaviour of the external
tokenizers), the requirement ids produced by
`parse_natural_language_requirements` are pairwise distinct, each id is
`"REQ-"` followed by the 1-based source-sentence number zero-padded to
3 digits, and the ids appear in strictly ascending source-sentence
order (gaps allowed for skipped sentences). -/
theorem c5_ids_unique_pattern_ascending (st wt : String → List String) (text : String) :
    ((parseNaturalLanguageRequirements st wt text).map (fun r => r.id)).Nodup
    ∧ (∀ r ∈ parseNaturalLanguageRequirements st wt text,
        ∃ i, r.id = "REQ-" ++ zfill 3 (natStr (i + 1)) ∧ (st text)[i]? = some r.rawText)
    ∧ (parseNaturalLanguageRequirements st wt text).Pairwise
        (fun a b => idVal a.id < idVal b.id) := by
  refine ⟨parseSentences_nodup wt (st text), ?_, parseSentences_pairwise wt (st text)⟩
  intro r hr
  obtain ⟨p, hp, hstep⟩ := mem_parseSentences hr
  obtain ⟨i, s⟩ := p
  have hps := parseStep_some hstep
  refine ⟨i, hps.1, ?_⟩
  rw [hps.2.1]
  exact List.mem_enum_iff_getElem?.1 hp

/-- Witness for C5 at a concrete single-sentence input. -/
theorem c5_witness :
    ((parseNaturalLanguageRequirements stOne wtSimple exampleSentence).map
      (fun r => r.id)).Nodup :=
  (c5_ids_unique_pattern_ascending stOne wtSimple exampleSentence).1

/-- C9: for every input text, every produced requirement comes from a
sentence of at least 5 words that carries one of the fixed indicator
verbs as a token — equivalently, a sentence shorter than 5 words or
without any indicator verb produces no requirement, and such sentences
are dropped without any error (the parser is a total function). -/
theorem c9_short_or_indicatorless_no_requirement
    (st wt : String → List String) (text : String) :
    ∀ r ∈ parseNaturalLanguageRequirements st wt text,
      5 ≤ (pySplitWs r.rawText).length
      ∧ ∃ ind ∈ reqIndicators, ind ∈ wt (pyLower r.rawText) := by
  intro r hr
  obtain ⟨p, hp, hstep⟩ := mem_parseSentences hr
  obtain ⟨i, s⟩ := p
  have h := parseStep_some hstep
  rw [h.2.1]
  refine ⟨h.2.2.1, ?_⟩
  have hany := h.2.2.2
  rw [List.any_eq_true] at hany
  obtain ⟨ind, hind, hc⟩ := hany
  exact ⟨ind, hind, by simpa using hc⟩

/-- Witness for C9: the worked example's sentence has 10 words and the
indicator `shall`. -/
theorem c9_witness :
    5 ≤ (pySplitWs exampleParsedReq.rawText).length
    ∧ ∃ ind ∈ reqIndicators, ind ∈ wtSimple (pyLower exampleParsedReq.rawText) :=
  c9_short_or_indicatorless_no_requirement stOne wtSimple exampleSentence
    exampleParsedReq (by decide)

/-- C6: priority detection first tests the four keyword buckets in the
fixed order critical, high, medium, low and returns the first bucket
with a matching keyword, falling back to the modal-verb rules only when
no bucket matches (`detectPrioritySpec` states this as the
specification words it); in particular any sentence containing both
`must` and `essential` is classified critical. -/
theorem c6_priority_first_match_precedence :
    (∀ s, detectPriority s = detectPrioritySpec s)
    ∧ ∀ s, substrB "must" (pyLower s) = true → substrB "essential" (pyLower s) = true →
        detectPriority s = "critical" := by
  constructor
  · intro s
    unfold detectPriority detectPrioritySpec priorityKeywords
    dsimp only
    by_cases h1 : criticalKws.any (fun k => substrB k (pyLower s)) = true
      <;> by_cases h2 : highKws.any (fun k => substrB k (pyLower s)) = true
      <;> by_cases h3 : mediumKws.any (fun k => substrB k (pyLower s)) = true
      <;> by_cases h4 : lowKws.any (fun k => substrB k (pyLower s)) = true
      <;> simp [List.find?, h1, h2, h3, h4]
  · intro s _ he
    unfold detectPriority
    dsimp only
    rw [if_pos]
    exact List.any_eq_true.2 ⟨"essential", by decide, he⟩

/-- Witness for C6 at a concrete sentence containing both keywords. -/
theorem c6_witness :
    detectPriority "The system must provide essential logging features." = "critical" :=
  c6_priority_first_match_precedence.2
    "The system must provide essential logging features." (by decide) (by decide)

/-- C7: on the specification's worked example, with the tokenizers
behaving as NLTK does on that input, the pipeline produces exactly one
requirement, with priority critical (via the `shall` fallback), type
functional, no missing-actor finding and no missing-condition
finding. -/
theorem c7_worked_example (st wt : String → List String)
    (h1 : st exampleSentence = [exampleSentence])
    (h2 : wt (pyLower exampleSentence)
      = ["the", "system", "shall", "authenticate", "users", "when", "they",
         "provide", "valid", "credentials", "."]) :
    parseNaturalLanguageRequirements st wt exampleSentence = [exampleParsedReq]
    ∧ exampleParsedReq.priority = "critical"
    ∧ exampleParsedReq.rtype = "functional"
    ∧ "Missing actor - who performs this action?" ∉ exampleParsedReq.ambiguities
    ∧ "Missing conditions - when does this requirement apply?"
        ∉ exampleParsedReq.ambiguities := by
  refine ⟨?_, rfl, rfl, by decide, by decide⟩
  unfold parseNaturalLanguageRequirements parseSentences
  rw [h1]
  have hstep : parseStep wt (0, exampleSentence) = some exampleParsedReq := by
    unfold parseStep
    rw [if_neg (by decide)]
    dsimp only
    rw [h2]
    decide
  show List.filterMap (parseStep wt) [(0, exampleSentence)] = [exampleParsedReq]
  rw [List.filterMap_cons, hstep]
  rfl

/-- Witness for C7 with concrete tokenizers realizing the NLTK
behaviour on the example input. -/
theorem c7_witness :
    parseNaturalLanguageRequirements stOne wtSimple exampleSentence = [exampleParsedReq]
    ∧ exampleParsedReq.priority = "critical"
    ∧ exampleParsedReq.rtype = "functional"
    ∧ "Missing actor - who performs this action?" ∉ exampleParsedReq.ambiguities
    ∧ "Missing conditions - when does this requirement apply?"
        ∉ exampleParsedReq.ambiguities :=
  c7_worked_example stOne wtSimple rfl (by decide)

/-- C8: for every requirement whose description mentions `login` (or
`authentication`), the implicit auth-before-access heuristic adds no
dependencies: the dependency list computed for that requirement inside
`analyze_dependencies` is exactly the explicit-pattern capture list, so
it can contain the requirement's own id only if an explicit capture
does (in particular the heuristic never adds the id, even when the
description also mentions `access`). -/
theorem c8_auth_requirement_no_heuristic_deps (reqs : List PReq) (r : PReq)
    (_hmem : r ∈ reqs)
    (h : substrB "login" (pyLower r.description) = true
      ∨ substrB "authentication" (pyLower r.description) = true) :
    perReqDeps reqs r = explicitDeps (pyLower r.description)
    ∧ (r.id ∈ perReqDeps reqs r → r.id ∈ explicitDeps (pyLower r.description)) := by
  unfold perReqDeps
  dsimp only
  rw [if_pos ?_]
  · exact ⟨rfl, fun hx => hx⟩
  · rcases h with h | h <;> simp [h]

/-- Witness for C8 at a concrete login requirement that also mentions
access. -/
theorem c8_witness :
    perReqDeps
      [⟨"REQ-001", "Users must login to access the system", "",
        "Users must login to access the system", "critical", "functional", [], []⟩]
      ⟨"REQ-001", "Users must login to access the system", "",
        "Users must login to access the system", "critical", "functional", [], []⟩
      = explicitDeps (pyLower "Users must login to access the system") :=
  (c8_auth_requirement_no_heuristic_deps _ _ (by decide) (Or.inl (by decide))).1

/-- C1: the claim is right about the intent but wrong about the code:
the four explicit-dependency regexes contain the upper-case literal
`REQ-` while they are run against the lower-cased description, so they
can never capture anything.  At the concrete failing input — a
requirement whose description contains the textual reference
`after REQ-001` — the captured-dependency list, the requirement's
whole dependency list, and its entry in the `analyze_dependencies`
result are all empty instead of containing `REQ-001`. -/
theorem c1_explicit_dependency_reference_dropped :
    substrB "after REQ-001" c1Req.description = true
    ∧ explicitDeps (pyLower c1Req.description) = []
    ∧ perReqDeps [c1Req] c1Req = []
    ∧ dictFind (analyzeDependencies [c1Req]) c1Req.id = some [] := by
  refine ⟨by decide, by decide, by decide, by decide⟩

/-- C4: every user-story row persisted by
`save_requirements_to_database` is linked to the placeholder
requirement id `REQ-001` and carries the story's derived numeric
priority. -/
theorem c4_story_rows_placeholder_linkage (stories : List UserStory) (nowIso : String) :
    (∀ row ∈ storyRows stories nowIso, row.requirementId = "REQ-001")
    ∧ (storyRows stories nowIso).map (fun row => row.priority)
        = stories.map (fun s => s.priority) := by
  constructor
  · intro row hrow
    obtain ⟨s, _, hrfl⟩ := List.mem_map.1 hrow
    rw [← hrfl]
    rfl
  · unfold storyRows
    rw [List.map_map]
    rfl

/-- Witness for C4 at a concrete story. -/
theorem c4_witness :
    (buildStoryRow "T0" ⟨"user", "log in", "benefit", [], 3⟩).requirementId = "REQ-001" :=
  (c4_story_rows_placeholder_linkage [⟨"user", "log in", "benefit", [], 3⟩] "T0").1
    _ (by decide)

/-- C10: `_map_priority_to_number` yields 1, 2, 3, 4 for critical,
high, medium, low, and 3 for anything else; its value always lies in
the range 1–4, so the numeric priority 5 of the declared 1–5 scale is
never produced, and every synthesized user story's priority lies in
1–4. -/
theorem c10_priority_number_range :
    (mapPriorityToNumber "critical" = 1 ∧ mapPriorityToNumber "high" = 2
      ∧ mapPriorityToNumber "medium" = 3 ∧ mapPriorityToNumber "low" = 4)
    ∧ (∀ p, mapPriorityToNumber p = 1 ∨ mapPriorityToNumber p = 2
        ∨ mapPriorityToNumber p = 3 ∨ mapPriorityToNumber p = 4)
    ∧ (∀ p, mapPriorityToNumber p ≠ 5)
    ∧ (∀ dedup nlp reqs s, s ∈ createUserStories dedup nlp reqs →
        1 ≤ s.priority ∧ s.priority ≤ 4) := by
  have hrange : ∀ p, mapPriorityToNumber p = 1 ∨ mapPriorityToNumber p = 2
      ∨ mapPriorityToNumber p = 3 ∨ mapPriorityToNumber p = 4 := by
    intro p
    unfold mapPriorityToNumber
    split_ifs <;> omega
  refine ⟨⟨rfl, rfl, rfl, rfl⟩, hrange, ?_, ?_⟩
  · intro p
    rcases hrange p with h | h | h | h <;> omega
  · intro dedup nlp reqs s hs
    unfold createUserStories at hs
    obtain ⟨r, _, hs'⟩ := List.mem_flatMap.1 hs
    obtain ⟨per, _, hrfl⟩ := List.mem_map.1 hs'
    have hpr : s.priority = mapPriorityToNumber r.priority := by
      rw [← hrfl]
      rfl
    rcases hrange r.priority with h | h | h | h <;> omega

/-- Witness for C10 at a concrete synthesized story. -/
theorem c10_witness :
    1 ≤ (generateUserStory none c3Req "admin").priority
    ∧ (generateUserStory none c3Req "admin").priority ≤ 4 :=
  c10_priority_number_range.2.2.2 dedupKeepFirst none [c3Req] _ (by decide)

/-- C2 counterexample: the claim that a memory-collaborator fault is
caught and ignored is false.  With a client whose calls raise, the run
returns an error — `process_requirements` does not complete — because
neither `store_in_memory_service` nor `process_requirements` has any
exception handler. -/
theorem c2_memory_fault_not_caught :
    (processRequirements stOne wtSimple dedupKeepFirst none (some failingClient) []
      "proj" "T0" "F0" c2Text).2.isOk = false := by
  rfl

/-- C2 amended: a fault raised by the memory collaborator propagates
out of `process_requirements` (the run fails and returns no result),
but the persisted snapshot and the rendered document are written
before the memory step, so those artifacts are identical to the ones
of a run whose collaborator succeeds (here: a run with no collaborator
at all, and by the same equation any other client). -/
theorem c2_memory_fault_propagates_but_outputs_written
    (st wt : String → List String) (dedup : List String → List String)
    (nlp : Option (String → Option (String × String))) (tree : List PFile)
    (proj nowIso nowFmt text : String) (f : MemClient)
    (h : ∀ rec, f rec = .error ()) :
    (processRequirements st wt dedup nlp (some f) tree proj nowIso nowFmt text).2.isOk
      = false
    ∧ (processRequirements st wt dedup nlp (some f) tree proj nowIso nowFmt text).1
      = (processRequirements st wt dedup nlp none tree proj nowIso nowFmt text).1 := by
  constructor
  · simp only [processRequirements, storeInMemoryService, h]
    rfl
  · rfl

/-- Witness for C2's amended statement at a concrete run. -/
theorem c2_amended_witness :
    (processRequirements stOne wtSimple dedupKeepFirst none (some failingClient) []
      "proj" "T0" "F0" c2Text).2.isOk = false
    ∧ (processRequirements stOne wtSimple dedupKeepFirst none (some failingClient) []
        "proj" "T0" "F0" c2Text).1
      = (processRequirements stOne wtSimple dedupKeepFirst none none []
          "proj" "T0" "F0" c2Text).1 :=
  c2_memory_fault_propagates_but_outputs_written stOne wtSimple dedupKeepFirst none []
    "proj" "T0" "F0" c2Text failingClient (fun _ => rfl)

/-- C3 counterexample: the pipeline is not a deterministic function of
the input text and file tree alone.  `_extract_personas` deduplicates
through Python `list(set(...))`, whose enumeration order is
implementation defined: two admissible enumeration orders of the same
persona set, at the same input and the same (frozen) clock, give
different persisted user-story rows — a difference not located in any
timestamp field. -/
theorem c3_set_order_changes_story_rows :
    AdmissibleDedup dedupKeepFirst
    ∧ AdmissibleDedup dedupRev
    ∧ storyRows (createUserStories dedupKeepFirst none [c3Req]) "T0"
        ≠ storyRows (createUserStories dedupRev none [c3Req]) "T0" :=
  ⟨admissible_dedupKeepFirst, admissible_dedupRev, by decide⟩

/-- C3 amended: determinism holds only relative to the set-enumeration
order used by persona deduplication (and the clock): for any two
admissible enumeration orders the requirement rows of the snapshot are
identical, and — whenever no requirement's deduplicated persona pool
is truncated by the three-persona cap — the synthesized story lists
and the persisted story rows are permutations of one another; the
story order (and, with more than three pooled personas, the selection)
may differ between runs, so snapshots and documents are not
byte-identical across interpreter runs even with timestamps fixed. -/
theorem c3_determinism_only_up_to_set_order
    (d₁ d₂ : List String → List String)
    (nlp : Option (String → Option (String × String)))
    (reqs : List PReq) (nowIso : String)
    (h₁ : AdmissibleDedup d₁) (h₂ : AdmissibleDedup d₂)
    (hlen : ∀ r ∈ reqs, (d₁ (personaPool r.description)).length ≤ 3) :
    (createUserStories d₁ nlp reqs).Perm (createUserStories d₂ nlp reqs)
    ∧ (storyRows (createUserStories d₁ nlp reqs) nowIso).Perm
        (storyRows (createUserStories d₂ nlp reqs) nowIso)
    ∧ ∀ deps trace,
        (saveRequirementsToDatabase reqs (createUserStories d₁ nlp reqs)
          deps trace nowIso).requirements
        = (saveRequirementsToDatabase reqs (createUserStories d₂ nlp reqs)
            deps trace nowIso).requirements := by
  have hstories : (createUserStories d₁ nlp reqs).Perm (createUserStories d₂ nlp reqs) := by
    unfold createUserStories
    refine flatMap_perm_of_pointwise _ _ reqs ?_
    intro r hr
    dsimp only
    have hper := extractPersonas_perm h₁ h₂ r.description (hlen r hr)
    by_cases he : (extractPersonas d₁ r.description).isEmpty = true
    · rw [List.isEmpty_iff] at he
      rw [he] at hper
      have he2 : extractPersonas d₂ r.description = [] := hper.symm.eq_nil
      rw [he, he2]
    · have he2 : ¬(extractPersonas d₂ r.description).isEmpty = true := by
        intro hc
        rw [List.isEmpty_iff] at hc
        rw [hc] at hper
        rw [List.isEmpty_iff] at he
        exact he hper.eq_nil
      rw [if_neg he, if_neg he2]
      exact hper.map _
  refine ⟨hstories, hstories.map _, fun deps trace => rfl⟩

/-- Witness for C3's amended statement with two concrete admissible
enumeration orders. -/
theorem c3_amended_witness :
    (createUserStories dedupKeepFirst none [c3Req]).Perm
      (createUserStories dedupRev none [c3Req]) :=
  (c3_determinism_only_up_to_set_order dedupKeepFirst dedupRev none [c3Req] "T0"
    admissible_dedupKeepFirst admissible_dedupRev (by decide)).1

end ReqEng
